import Mathlib

/-!
Shallow embedding of the progression/persistence core of the Nihongo Quest
repository (src/config.py, src/core/progression.py, src/core/save_system.py,
src/core/game_manager.py), together with theorems settling the frozen claims
about it.

Modelling conventions:
* Python `int` is modelled as `Int` (or `Nat` where the source value is
  provably non-negative by construction), Python `float` as `ℚ` (exact
  rational arithmetic in place of IEEE-754 doubles; every claim settled here
  depends only on order/monotonicity facts that are insensitive to this
  substitution, and `1.15` is represented exactly as `23/20`).
* Python dictionaries holding JSON documents are modelled as insertion-ordered
  association lists (`JObj`), with `dinsert` mirroring `d[k] = v` (replace in
  place if the key exists, else append) and `dlookup` mirroring `d.get(k)`.
* `time.time()` / `datetime.now()` are modelled as explicit `now` parameters.
* File-system effects of `save_system.py` are modelled per slot by `SlotFS`
  (primary and backup file contents); possible I/O failures of the JSON write
  and of the best-effort backup copy are modelled by explicit boolean
  parameters (`writeOk`, `backupOk`).

The file lists all definitions first, then all lemmas and theorems.
-/

/-! ## Configuration constants (src/config.py) -/

def MAX_SAVE_SLOTS : Int := 6

def DEFAULT_DIFFICULTY : String := "normal"

def BASE_XP_PER_LEVEL : ℚ := 100

def XP_GROWTH_FACTOR : ℚ := 1.15

def MAX_PLAYER_LEVEL : Int := 100

/-- One entry of `config.MONUMENTS`.  The presentation-only `description`
field is omitted; `name`, `name_jp`, `category` and `unlock_requires` are
kept. -/
structure Monument where
  name : String
  name_jp : String
  category : String
  unlock_requires : Option String
deriving DecidableEq

/-- `config.MONUMENTS`: the fixed dictionary of 13 monuments, keyed by id. -/
def MONUMENTS : Int → Option Monument
  | 0 => some ⟨"Hiragana Temple", "ひらがな寺", "hiragana", none⟩
  | 1 => some ⟨"Katakana Shrine", "カタカナ神社", "katakana", some "hiragana"⟩
  | 2 => some ⟨"Grammar Garden", "文法庭園", "grammar_basic", some "katakana"⟩
  | 3 => some ⟨"Vocabulary Village", "語彙の村", "vocabulary_basic", some "grammar_basic"⟩
  | 4 => some ⟨"Verb Dojo", "動詞道場", "verbs", some "vocabulary_basic"⟩
  | 5 => some ⟨"Kanji Castle N5", "漢字城 N5", "kanji_n5", some "verbs"⟩
  | 6 => some ⟨"Listening Lake", "聴解の湖", "listening", some "kanji_n5"⟩
  | 7 => some ⟨"Grammar Grove", "文法の森", "grammar_intermediate", some "listening"⟩
  | 8 => some ⟨"Kanji Keep N4/N3", "漢字砦 N4/N3", "kanji_intermediate", some "grammar_intermediate"⟩
  | 9 => some ⟨"Reading Realm", "読解の国", "reading", some "kanji_intermediate"⟩
  | 10 => some ⟨"Conversation Court", "会話の宮廷", "conversation", some "reading"⟩
  | 11 => some ⟨"Advanced Academy", "上級学院", "advanced", some "conversation"⟩
  | 12 => some ⟨"Immersion Island", "没入島", "immersion", some "advanced"⟩
  | _ => none

def TOTAL_MONUMENTS : Int := 13

/-- `config.SRS_STAGES`: base review interval in hours, keyed by stage name
(`dict.get` with default `0` for unknown keys). -/
def SRS_STAGES_get (stage_name : String) : ℚ :=
  if stage_name = "new" then 0
  else if stage_name = "learning" then 4
  else if stage_name = "review" then 24
  else if stage_name = "mastered" then 168
  else 0

/-! ## XP / leveling helpers (src/core/progression.py) -/

/-- The running float `total` of `xp_required_for_level` after the loop body
has run for `lv = 2, …, m+1`, i.e. `m` iterations:
`total += BASE_XP_PER_LEVEL * XP_GROWTH_FACTOR ** (lv - 2)`. -/
def xpTotal : Nat → ℚ
  | 0 => 0
  | m + 1 => xpTotal m + BASE_XP_PER_LEVEL * XP_GROWTH_FACTOR ^ m

/-- `progression.xp_required_for_level`: total cumulative XP needed to reach
`level`; the argument is clamped to `[1, MAX_PLAYER_LEVEL]`, level ≤ 1 costs
0, and the float sum is rounded with `int(math.ceil(total))`. -/
def xp_required_for_level (level : Int) : Int :=
  let l := max 1 (min level MAX_PLAYER_LEVEL)
  if l ≤ 1 then 0 else Int.ceil (xpTotal (l.toNat - 1))

/-- The `for lv in range(1, MAX_PLAYER_LEVEL + 1)` search loop of
`level_from_xp`, with the remaining iteration count made explicit; falling
off the end of the loop returns `MAX_PLAYER_LEVEL`. -/
def levelLoop (xp : Int) : Nat → Int → Int
  | 0, _ => MAX_PLAYER_LEVEL
  | fuel + 1, lv => if xp_required_for_level (lv + 1) > xp then lv else levelLoop xp fuel (lv + 1)

/-- `progression.level_from_xp`: the player's level for a given total XP
(clamped below by 0). -/
def level_from_xp (total_xp : Int) : Int :=
  levelLoop (max 0 total_xp) 100 1

/-- `xp_required_for_level` with the clamping stripped: the ceiling of the
cumulative float total for a level `n ≥ 1`. -/
def xpCeilI (n : Int) : Int := Int.ceil (xpTotal (n - 1).toNat)

/-! ## SRS item tracker (src/core/progression.py, class SRSItem) -/

/-- The `MasteryStage` IntEnum values.  The stage is carried as a plain
natural number, exactly as the Python enum compares and does arithmetic on
its integer values; the promotion/demotion guards of `record_answer` are
what keep it inside `[NEW, MASTERED]`. -/
def MasteryStage.NEW : Nat := 0

def MasteryStage.LEARNING : Nat := 1

def MasteryStage.REVIEW : Nat := 2

def MasteryStage.MASTERED : Nat := 3

/-- `progression.STAGE_NAMES` (unknown ordinals, which cannot arise from
`record_answer`, map to the empty string; the Python dict would raise). -/
def STAGE_NAMES (stage : Nat) : String :=
  if stage = 0 then "new"
  else if stage = 1 then "learning"
  else if stage = 2 then "review"
  else if stage = 3 then "mastered"
  else ""

/-- The mutable state of `progression.SRSItem`. -/
structure SRSItem where
  item_id : String
  stage : Nat
  consecutive_correct : Nat
  total_correct : Nat
  total_attempts : Nat
  last_reviewed : ℚ
  next_review : ℚ
deriving DecidableEq

/-- `SRSItem.__init__` with all counters at their defaults: a fresh item. -/
def SRSItem.fresh (id : String) : SRSItem :=
  { item_id := id, stage := MasteryStage.NEW, consecutive_correct := 0,
    total_correct := 0, total_attempts := 0, last_reviewed := 0, next_review := 0 }

/-- `SRSItem.record_answer`: record one review answer.  `now` stands for the
`time.time()` call; the updated item is returned (the Python method mutates
`self` and returns the new stage, available here as `.stage`). -/
def SRSItem.record_answer (it : SRSItem) (correct : Bool)
    (consecutive_to_master : Nat) (srs_interval_mult : ℚ) (now : ℚ) : SRSItem :=
  let it := { it with total_attempts := it.total_attempts + 1, last_reviewed := now }
  let it :=
    if correct then
      let it := { it with total_correct := it.total_correct + 1,
                          consecutive_correct := it.consecutive_correct + 1 }
      if it.consecutive_correct ≥ consecutive_to_master then
        if it.stage < MasteryStage.MASTERED then
          { it with stage := it.stage + 1, consecutive_correct := 0 }
        else it
      else it
    else
      let it := { it with consecutive_correct := 0 }
      if MasteryStage.NEW < it.stage then { it with stage := it.stage - 1 } else it
  let base_hours := SRS_STAGES_get (STAGE_NAMES it.stage)
  { it with next_review := now + base_hours * 3600 * srs_interval_mult }

/-- One review event fed to `record_answer`: the answer plus the two
difficulty-derived parameters and the wall-clock time of the call. -/
structure AnswerEvent where
  correct : Bool
  consecutive_to_master : Nat
  srs_interval_mult : ℚ
  now : ℚ

/-- Apply a sequence of `record_answer` calls in order. -/
def recordSeq (it : SRSItem) (es : List AnswerEvent) : SRSItem :=
  es.foldl (fun acc e => acc.record_answer e.correct e.consecutive_to_master
    e.srs_interval_mult e.now) it

/-- The two quantities of the C5 invariant. -/
def SRSgood (it : SRSItem) : Prop :=
  it.stage ≤ MasteryStage.MASTERED ∧ it.total_correct ≤ it.total_attempts

/-! ## Monument queries (src/core/game_manager.py, src/core/progression.py)

`SaveView` is the well-typed view of the save-data dictionary that
`GameManager` and `ProgressionTracker` read through `dict.get` with
defaults: the completed-id lists hold strings and `mastered_characters`
maps a script name to per-item SRS dicts, of which only the `"stage"`
string is consulted by the functions below. -/

/-- Python `str.startswith`. -/
def str_startswith (s pre : String) : Bool :=
  pre.data.isPrefixOf s.data

structure SaveView where
  completed_lessons : List String
  completed_minigames : List String
  mastered_characters : String → List (String × String)

/-- `config._UNLOCK_CHAIN` built by `game_manager` (`dict.get`: missing ids
give `None`, which `is_monument_unlocked` treats as "no prerequisite"). -/
def UNLOCK_CHAIN (monument_id : Int) : Option String :=
  (MONUMENTS monument_id).bind fun m => m.unlock_requires

/-- `GameManager._category_minigames_complete`: a category counts as
complete when at least one completed-minigame id starts with
`"<category>_"`. -/
def category_minigames_complete (category : String) (completed : List String) : Bool :=
  completed.any fun mg_id => str_startswith mg_id (category ++ "_")

/-- `GameManager.is_monument_unlocked`; `save_data` is the manager's
`_save_data` (None when no save is loaded). -/
def is_monument_unlocked (save_data : Option SaveView) (monument_id : Int) : Bool :=
  if monument_id < 0 ∨ TOTAL_MONUMENTS ≤ monument_id then false
  else if monument_id = 0 then true
  else
    match save_data with
    | none => false
    | some d =>
      match UNLOCK_CHAIN monument_id with
      | none => true
      | some required_category =>
        category_minigames_complete required_category d.completed_minigames

/-- `ProgressionTracker._expected_mastery_count`. -/
def expected_mastery_count (category : String) : Nat :=
  if category = "hiragana" then 46
  else if category = "katakana" then 46
  else if category = "grammar_basic" then 20
  else if category = "vocabulary_basic" then 200
  else if category = "verbs" then 50
  else if category = "kanji_n5" then 100
  else if category = "listening" then 30
  else if category = "grammar_intermediate" then 40
  else if category = "kanji_intermediate" then 350
  else if category = "reading" then 25
  else if category = "conversation" then 20
  else if category = "advanced" then 60
  else if category = "immersion" then 30
  else 30

/-- Count the entries of a script dict whose `"stage"` field is
`"mastered"`. -/
def countMastered (entries : List (String × String)) : Nat :=
  (entries.filter fun e => e.2 = "mastered").length

/-- The `mastered_count` computed by `monument_completion_percentage`:
populated only for the two kana categories and for `kanji*` categories,
0 for everything else. -/
def masteredCountFor (d : SaveView) (category : String) : Nat :=
  if category = "hiragana" ∨ category = "katakana" then
    countMastered (d.mastered_characters category)
  else if str_startswith category "kanji" then
    countMastered (d.mastered_characters "kanji")
  else 0

/-- Python `round(x, 1)` (to one decimal place).  Mathlib's `round` rounds
half away from the floor (`⌊x + 1/2⌋`) whereas Python rounds half to even;
the two agree except at exact .05 ties, which no claim exercises, and both
are monotone, which is all the proofs below use. -/
def pyRound1 (x : ℚ) : ℚ := (round (x * 10) : Int) / 10

/-- `ProgressionTracker.monument_completion_percentage`: weighted blend of
completed lessons (30%), completed minigames (30%) and mastered characters
(40%) against expected counts, as a percentage rounded to one decimal. -/
def monument_completion_percentage (d : SaveView) (monument_id : Int) : ℚ :=
  match MONUMENTS monument_id with
  | none => 0
  | some m =>
    let pre := m.category ++ "_"
    let lesson_count := (d.completed_lessons.filter fun lid => str_startswith lid pre).length
    let minigame_count := (d.completed_minigames.filter fun mid => str_startswith mid pre).length
    let mastered_count := masteredCountFor d m.category
    let expected_lessons : Nat := 5
    let expected_minigames : Nat := 3
    let expected_mastery := expected_mastery_count m.category
    let lesson_pct : ℚ :=
      if expected_lessons ≠ 0 then min 1 ((lesson_count : ℚ) / expected_lessons) else 0
    let minigame_pct : ℚ :=
      if expected_minigames ≠ 0 then min 1 ((minigame_count : ℚ) / expected_minigames) else 0
    let mastery_pct : ℚ :=
      if expected_mastery ≠ 0 then min 1 ((mastered_count : ℚ) / expected_mastery) else 0
    let weighted := lesson_pct * 0.30 + minigame_pct * 0.30 + mastery_pct * 0.40
    pyRound1 (weighted * 100)

/-! ## Save system (src/core/save_system.py)

JSON documents are modelled by `JValue`; a Python dict is an
insertion-ordered association list.  Note that Python's `bool` is a
subclass of `int`, so `isinstance(x, int)` and `isinstance(x, (int, float))`
accept booleans — the type-coercion branches below mirror that. -/

inductive JValue where
  | jnull : JValue
  | jbool : Bool → JValue
  | jint : Int → JValue
  | jfloat : ℚ → JValue
  | jstr : String → JValue
  | jlist : List JValue → JValue
  | jobj : List (String × JValue) → JValue

/-- A JSON object / Python dict: ordered key-value pairs, keys unique by
construction of the operations below. -/
abbrev JObj := List (String × JValue)

/-- `d.get(k)` / `k in d`. -/
def dlookup : JObj → String → Option JValue
  | [], _ => none
  | (k', v) :: rest, k => if k' = k then some v else dlookup rest k

/-- `d[k] = v`: replace in place if the key exists, else append. -/
def dinsert : JObj → String → JValue → JObj
  | [], k, v => [(k, v)]
  | (k', v') :: rest, k, v =>
    if k' = k then (k, v) :: rest else (k', v') :: dinsert rest k v

/-- The `mastered_characters` value of the default template. -/
def default_mastered : JValue :=
  .jobj [("hiragana", .jobj []), ("katakana", .jobj []), ("kanji", .jobj [])]

/-- `save_system._default_save_data`: the fresh save-data template. -/
def default_save_data (slot : Int) : JObj :=
  [("slot", .jint slot),
   ("player_name", .jstr ""),
   ("character_appearance", .jobj
      [("body_type", .jstr "average"), ("hair_style", .jstr "short"),
       ("hair_color", .jstr "black"), ("eye_color", .jstr "brown"),
       ("skin_tone", .jstr "medium"), ("outfit_style", .jstr "casual")]),
   ("current_monument", .jint 0),
   ("completed_lessons", .jlist []),
   ("completed_minigames", .jlist []),
   ("mastered_characters", default_mastered),
   ("vocabulary_learned", .jlist []),
   ("grammar_learned", .jlist []),
   ("total_play_time", .jfloat 0),
   ("last_played", .jnull),
   ("difficulty", .jstr DEFAULT_DIFFICULTY)]

/-- The `for key, default_value in template.items(): if key not in data:
data[key] = default_value` loop of `_validate_save_data`. -/
def fillMissing (data : JObj) : JObj → JObj
  | [] => data
  | (k, v) :: rest =>
    fillMissing (if (dlookup data k).isSome then data else dinsert data k v) rest

/-- `if sub_key not in mc or not isinstance(mc[sub_key], dict):
mc[sub_key] = {}`. -/
def fixScript (mc : JObj) (sub : String) : JObj :=
  match dlookup mc sub with
  | some (.jobj _) => mc
  | _ => dinsert mc sub (.jobj [])

/-- The `mastered_characters` repair step of `_validate_save_data`. -/
def fixMastered (data : JObj) : JObj :=
  match dlookup data "mastered_characters" with
  | some (.jobj mc) =>
    dinsert data "mastered_characters"
      (.jobj (fixScript (fixScript (fixScript mc "hiragana") "katakana") "kanji"))
  | _ => dinsert data "mastered_characters" default_mastered

/-- The per-key list repair step: coerce a non-list field to `[]`. -/
def fixList (data : JObj) (k : String) : JObj :=
  match dlookup data k with
  | some (.jlist _) => data
  | _ => dinsert data k (.jlist [])

/-- `isinstance(x, (int, float))` (a Python `bool` is an `int`). -/
def isNumeric : Option JValue → Bool
  | some (.jint _) => true
  | some (.jfloat _) => true
  | some (.jbool _) => true
  | _ => false

/-- `isinstance(x, int)` (a Python `bool` is an `int`). -/
def isIntLike : Option JValue → Bool
  | some (.jint _) => true
  | some (.jbool _) => true
  | _ => false

/-- `save_system._validate_save_data`: fill missing keys from the template,
repair `mastered_characters`, coerce list and numeric fields, and force the
`slot` field to the requested slot. -/
def validate_save_data (data : JObj) (slot : Int) : JObj :=
  let data := fillMissing data (default_save_data slot)
  let data := fixMastered data
  let data := fixList data "completed_lessons"
  let data := fixList data "completed_minigames"
  let data := fixList data "vocabulary_learned"
  let data := fixList data "grammar_learned"
  let data :=
    if isNumeric (dlookup data "total_play_time") then data
    else dinsert data "total_play_time" (.jfloat 0)
  let data :=
    if isIntLike (dlookup data "current_monument") then data
    else dinsert data "current_monument" (.jint 0)
  dinsert data "slot" (.jint slot)

/-- Contents of one on-disk file: parsed JSON, or unparseable text. -/
inductive FileData where
  | ok : JValue → FileData
  | bad : FileData

/-- The two files of one save slot (`save_slot_<n>.json` and
`save_slot_<n>.bak.json`); `none` means the file does not exist. -/
structure SlotFS where
  primary : Option FileData
  backup : Option FileData

/-- `save_system.save_game`.  `now` models
`datetime.now(timezone.utc).isoformat()`, `writeOk` models whether the
JSON dump + atomic rename succeeds, and `backupOk` whether the best-effort
`shutil.copy2` backup succeeds.  An out-of-range slot raises `ValueError`
(`Except.error`); otherwise the result is the returned boolean, the
caller's record after the in-place `slot`/`last_played` stamping, and the
new file-system state. -/
def save_game (slot : Int) (data : JObj) (now : String) (writeOk backupOk : Bool)
    (fs : SlotFS) : Except String (Bool × JObj × SlotFS) :=
  if 1 ≤ slot ∧ slot ≤ MAX_SAVE_SLOTS then
    let data := dinsert data "slot" (.jint slot)
    let data := dinsert data "last_played" (.jstr now)
    let fs := if fs.primary.isSome ∧ backupOk then { fs with backup := fs.primary } else fs
    if writeOk then .ok (true, data, { fs with primary := some (.ok (.jobj data)) })
    else .ok (false, data, fs)
  else .error "Invalid save slot"

/-- `save_system.load_game`: try the primary file, then the backup; a
backup hit is validated and immediately re-saved as the new primary
(`now`, `writeOk`, `backupOk` parameterize that nested `save_game` call).
Returns the loaded record (or `none`) and the resulting file-system
state. -/
def load_game (slot : Int) (now : String) (writeOk backupOk : Bool)
    (fs : SlotFS) : Except String (Option JObj × SlotFS) :=
  if 1 ≤ slot ∧ slot ≤ MAX_SAVE_SLOTS then
    match fs.primary with
    | some (.ok (.jobj d)) => .ok (some (validate_save_data d slot), fs)
    | _ =>
      match fs.backup with
      | some (.ok (.jobj d)) =>
        match save_game slot (validate_save_data d slot) now writeOk backupOk fs with
        | .ok (_, data2, fs2) => .ok (some data2, fs2)
        | .error e => .error e
      | _ => .ok (none, fs)
  else .error "Invalid save slot"

/-- `save_system.does_save_exist`: primary-file existence only. -/
def does_save_exist (slot : Int) (fs : SlotFS) : Except String Bool :=
  if 1 ≤ slot ∧ slot ≤ MAX_SAVE_SLOTS then .ok fs.primary.isSome
  else .error "Invalid save slot"

/-- The SaveRecord fields of the default template (the data-model fields the
loader guarantees; `player_xp` / `player_level` are **not** among them). -/
def coreKeys : List String :=
  ["slot", "player_name", "character_appearance", "current_monument",
   "completed_lessons", "completed_minigames", "mastered_characters",
   "vocabulary_learned", "grammar_learned", "total_play_time",
   "last_played", "difficulty"]

def hasCoreFields (d : JObj) : Bool :=
  coreKeys.all fun k => (dlookup d k).isSome

/-- A present-but-unusable primary file: unparseable JSON, or JSON whose
top level is not a dict. -/
def primaryCorrupt : Option FileData → Bool
  | some .bad => true
  | some (.ok (.jobj _)) => false
  | some (.ok _) => true
  | none => false

/-! ### Facts about the leveling curve -/

lemma one_le_growth : (1 : ℚ) ≤ XP_GROWTH_FACTOR := by norm_num [XP_GROWTH_FACTOR]

lemma xpTotal_nonneg (m : Nat) : 0 ≤ xpTotal m := by
  induction m with
  | zero => simp [xpTotal]
  | succ k ih =>
    have hp : (0 : ℚ) ≤ XP_GROWTH_FACTOR ^ k := pow_nonneg (by norm_num [XP_GROWTH_FACTOR]) k
    have : (0 : ℚ) ≤ BASE_XP_PER_LEVEL * XP_GROWTH_FACTOR ^ k := by
      have : (0 : ℚ) ≤ BASE_XP_PER_LEVEL := by norm_num [BASE_XP_PER_LEVEL]
      positivity
    simp only [xpTotal]
    linarith

lemma xpTotal_succ_ge (m : Nat) : xpTotal m + 100 ≤ xpTotal (m + 1) := by
  have hp : (1 : ℚ) ≤ XP_GROWTH_FACTOR ^ m := one_le_pow₀ one_le_growth
  have : (100 : ℚ) ≤ BASE_XP_PER_LEVEL * XP_GROWTH_FACTOR ^ m := by
    have : BASE_XP_PER_LEVEL = (100 : ℚ) := by norm_num [BASE_XP_PER_LEVEL]
    nlinarith
  simp only [xpTotal]
  linarith

lemma xpCeilI_nonneg (n : Int) : 0 ≤ xpCeilI n := by
  exact Int.ceil_nonneg (xpTotal_nonneg _)

lemma xpCeilI_one : xpCeilI 1 = 0 := by
  unfold xpCeilI
  norm_num [xpTotal]

lemma ceil_xpTotal_gap (m : Nat) :
    Int.ceil (xpTotal m) + 100 ≤ Int.ceil (xpTotal (m + 1)) := by
  have hstep := xpTotal_succ_ge m
  have hceil : Int.ceil (xpTotal m + ((100 : Int) : ℚ)) ≤ Int.ceil (xpTotal (m + 1)) := by
    apply Int.ceil_le_ceil
    push_cast
    linarith
  rw [Int.ceil_add_int] at hceil
  exact hceil

lemma xpCeilI_gap (n : Int) (h : 1 ≤ n) : xpCeilI n + 100 ≤ xpCeilI (n + 1) := by
  have hm : (n + 1 - 1).toNat = (n - 1).toNat + 1 := by omega
  unfold xpCeilI
  rw [hm]
  exact ceil_xpTotal_gap (n - 1).toNat

lemma xpCeilI_mono (a b : Int) (ha : 1 ≤ a) (hab : a ≤ b) : xpCeilI a ≤ xpCeilI b := by
  refine @Int.le_induction (fun t => xpCeilI a ≤ xpCeilI t) a (le_refl _) (fun k hk ih => ?_) b hab
  have := xpCeilI_gap k (by omega)
  omega

lemma xp_req_eq (n : Int) (h : 1 ≤ n) :
    xp_required_for_level n = xpCeilI (min n 100) := by
  have hmax : max 1 (min n MAX_PLAYER_LEVEL) = min n 100 := by
    simp only [MAX_PLAYER_LEVEL]
    omega
  simp only [xp_required_for_level, hmax]
  by_cases h1 : min n 100 ≤ 1
  · have hone : min n 100 = 1 := by omega
    rw [if_pos (by omega), hone, xpCeilI_one]
  · rw [if_neg h1]
    have : (min n 100).toNat - 1 = (min n 100 - 1).toNat := by omega
    rw [this]
    rfl

lemma levelLoop_hit (xp : Int) :
    ∀ (fuel : Nat) (lv m : Int), lv ≤ m → m < lv + fuel →
    (∀ j, lv ≤ j → j < m → xp_required_for_level (j + 1) ≤ xp) →
    xp < xp_required_for_level (m + 1) →
    levelLoop xp fuel lv = m := by
  intro fuel
  induction fuel with
  | zero => intro lv m h1 h2 _ _; omega
  | succ f ih =>
    intro lv m h1 h2 hc hm
    rw [levelLoop]
    rcases eq_or_lt_of_le h1 with rfl | hlt
    · rw [if_pos (by omega)]
    · rw [if_neg (by have := hc lv le_rfl hlt; omega)]
      exact ih (lv + 1) m (by omega) (by omega) (fun j hj1 hj2 => hc j (by omega) hj2) hm

lemma levelLoop_exhaust (xp : Int) :
    ∀ (fuel : Nat) (lv : Int),
    (∀ j, lv ≤ j → j < lv + fuel → xp_required_for_level (j + 1) ≤ xp) →
    levelLoop xp fuel lv = MAX_PLAYER_LEVEL := by
  intro fuel
  induction fuel with
  | zero => intro lv _; rfl
  | succ f ih =>
    intro lv hc
    rw [levelLoop]
    rw [if_neg (by have := hc lv le_rfl (by omega); omega)]
    exact ih (lv + 1) (fun j hj1 hj2 => hc j (by omega) (by omega))

/-- C1: for every level n in 1..100, `level_from_xp (xp_required_for_level n) = n`,
and for every n in 2..100, `level_from_xp (xp_required_for_level n - 1) = n - 1`
(with BASE_XP_PER_LEVEL = 100, XP_GROWTH_FACTOR = 1.15, MAX_PLAYER_LEVEL = 100). -/
theorem leveling_inverse (n : Int) (h1 : 1 ≤ n) (h2 : n ≤ 100) :
    level_from_xp (xp_required_for_level n) = n ∧
    (2 ≤ n → level_from_xp (xp_required_for_level n - 1) = n - 1) := by
  have hreq : ∀ k : Int, 1 ≤ k → k ≤ 100 → xp_required_for_level k = xpCeilI k := by
    intro k hk1 hk2
    rw [xp_req_eq k hk1]
    congr 1
    omega
  constructor
  · rw [hreq n h1 h2]
    have hxp0 : 0 ≤ xpCeilI n := xpCeilI_nonneg n
    rw [level_from_xp, max_eq_right hxp0]
    by_cases hn : n = 100
    · subst hn
      have hE := levelLoop_exhaust (xpCeilI 100) 100 1 (by
        intro j hj1 hj2
        rw [xp_req_eq (j + 1) (by omega)]
        exact xpCeilI_mono (min (j + 1) 100) 100 (by omega) (by omega))
      rw [hE]
      rfl
    · apply levelLoop_hit _ _ _ _ h1 (by omega)
      · intro j hj1 hj2
        rw [hreq (j + 1) (by omega) (by omega)]
        exact xpCeilI_mono (j + 1) n (by omega) (by omega)
      · rw [hreq (n + 1) (by omega) (by omega)]
        have := xpCeilI_gap n h1
        omega
  · intro h3
    rw [hreq n h1 h2]
    have hg := xpCeilI_gap 1 le_rfl
    norm_num at hg
    have hm2 := xpCeilI_mono 2 n (by omega) h3
    have h1c := xpCeilI_one
    have hxp0 : 0 ≤ xpCeilI n - 1 := by omega
    rw [level_from_xp, max_eq_right hxp0]
    apply levelLoop_hit _ _ _ _ (by omega : (1 : Int) ≤ n - 1) (by omega)
    · intro j hj1 hj2
      rw [hreq (j + 1) (by omega) (by omega)]
      have hmono := xpCeilI_mono (j + 1) (n - 1) (by omega) (by omega)
      have hg := xpCeilI_gap (n - 1) (by omega)
      have : n - 1 + 1 = n := by omega
      rw [this] at hg
      omega
    · have : n - 1 + 1 = n := by omega
      rw [this, hreq n h1 h2]
      omega

/-- Witness for C1 at n = 2. -/
theorem leveling_inverse_witness :
    level_from_xp (xp_required_for_level 2) = 2 ∧
    level_from_xp (xp_required_for_level 2 - 1) = 1 :=
  ⟨(leveling_inverse 2 (by norm_num) (by norm_num)).1,
   (leveling_inverse 2 (by norm_num) (by norm_num)).2 (by norm_num)⟩

/-! ### Single-step facts about `record_answer` -/

lemma record_answer_correct_no_promo (it : SRSItem) (k : Nat) (mult now : ℚ)
    (h : it.consecutive_correct + 1 < k) :
    ((it.record_answer true k mult now).stage = it.stage ∧
     (it.record_answer true k mult now).consecutive_correct = it.consecutive_correct + 1) ∧
    ((it.record_answer true k mult now).total_correct = it.total_correct + 1 ∧
     (it.record_answer true k mult now).total_attempts = it.total_attempts + 1) := by
  simp only [SRSItem.record_answer, if_true]
  rw [if_neg (by omega : ¬ it.consecutive_correct + 1 ≥ k)]
  simp

lemma record_answer_correct_promo (it : SRSItem) (k : Nat) (mult now : ℚ)
    (h1 : k ≤ it.consecutive_correct + 1) (h2 : it.stage < MasteryStage.MASTERED) :
    ((it.record_answer true k mult now).stage = it.stage + 1 ∧
     (it.record_answer true k mult now).consecutive_correct = 0) ∧
    ((it.record_answer true k mult now).total_correct = it.total_correct + 1 ∧
     (it.record_answer true k mult now).total_attempts = it.total_attempts + 1) := by
  simp only [SRSItem.record_answer, if_true]
  rw [if_pos (by omega : it.consecutive_correct + 1 ≥ k), if_pos h2]
  simp

lemma record_answer_correct_ceiling (it : SRSItem) (k : Nat) (mult now : ℚ)
    (h1 : k ≤ it.consecutive_correct + 1) (h2 : ¬ it.stage < MasteryStage.MASTERED) :
    ((it.record_answer true k mult now).stage = it.stage ∧
     (it.record_answer true k mult now).consecutive_correct = it.consecutive_correct + 1) ∧
    ((it.record_answer true k mult now).total_correct = it.total_correct + 1 ∧
     (it.record_answer true k mult now).total_attempts = it.total_attempts + 1) := by
  simp only [SRSItem.record_answer, if_true]
  rw [if_pos (by omega : it.consecutive_correct + 1 ≥ k), if_neg h2]
  simp

lemma record_answer_incorrect (it : SRSItem) (k : Nat) (mult now : ℚ) :
    ((it.record_answer false k mult now).stage =
      (if MasteryStage.NEW < it.stage then it.stage - 1 else it.stage) ∧
     (it.record_answer false k mult now).consecutive_correct = 0) ∧
    ((it.record_answer false k mult now).total_correct = it.total_correct ∧
     (it.record_answer false k mult now).total_attempts = it.total_attempts + 1) := by
  simp only [SRSItem.record_answer, Bool.false_eq_true, if_false]
  by_cases h : MasteryStage.NEW < it.stage
  · rw [if_pos h, if_pos h]
    simp
  · rw [if_neg h, if_neg h]
    simp

/-- C4: a single incorrect answer resets the streak to 0 and lowers the stage
by exactly one when it is above `new`, leaving it unchanged at `new` (so the
stage never goes below `new`). -/
theorem srs_demotion (it : SRSItem) (k : Nat) (mult now : ℚ) :
    (it.record_answer false k mult now).consecutive_correct = 0 ∧
    (it.record_answer false k mult now).stage =
      (if MasteryStage.NEW < it.stage then it.stage - 1 else it.stage) := by
  have h := record_answer_incorrect it k mult now
  exact ⟨h.1.2, h.1.1⟩

/-! ### Sequences of answers -/

lemma recordSeq_nil (it : SRSItem) : recordSeq it [] = it := rfl

lemma recordSeq_cons (it : SRSItem) (e : AnswerEvent) (es : List AnswerEvent) :
    recordSeq it (e :: es) =
      recordSeq (it.record_answer e.correct e.consecutive_to_master
        e.srs_interval_mult e.now) es := rfl

lemma recordSeq_append (it : SRSItem) (es fs : List AnswerEvent) :
    recordSeq it (es ++ fs) = recordSeq (recordSeq it es) fs := by
  simp [recordSeq, List.foldl_append]

lemma record_answer_good (it : SRSItem) (c : Bool) (k : Nat) (mult now : ℚ)
    (h : SRSgood it) :
    SRSgood (it.record_answer c k mult now) := by
  obtain ⟨hs, ht⟩ := h
  cases c with
  | false =>
    have h := record_answer_incorrect it k mult now
    constructor
    · rw [h.1.1]
      split <;> omega
    · omega
  | true =>
    by_cases h1 : it.consecutive_correct + 1 < k
    · have h := record_answer_correct_no_promo it k mult now h1
      exact ⟨by omega, by omega⟩
    · by_cases h2 : it.stage < MasteryStage.MASTERED
      · have h := record_answer_correct_promo it k mult now (by omega) h2
        exact ⟨by omega, by omega⟩
      · have h := record_answer_correct_ceiling it k mult now (by omega) h2
        exact ⟨by omega, by omega⟩

lemma recordSeq_good (es : List AnswerEvent) :
    ∀ it : SRSItem, SRSgood it → SRSgood (recordSeq it es) := by
  induction es with
  | nil => intro it h; exact h
  | cons e es ih =>
    intro it h
    rw [recordSeq_cons]
    exact ih _ (record_answer_good it e.correct e.consecutive_to_master
      e.srs_interval_mult e.now h)

/-- C5: for every finite sequence of `record_answer` calls (any mix of
correct/incorrect answers, any thresholds and interval multipliers) applied
to a fresh `SRSItem`, after every call the stage lies between `new` (0) and
`mastered` (3) inclusive, and `total_correct ≤ total_attempts` holds.
(Every such "after" state is `recordSeq` of some sequence from the fresh
item, so quantifying over the whole sequence covers every prefix.) -/
theorem srs_bounds (id : String) (es : List AnswerEvent) :
    MasteryStage.NEW ≤ (recordSeq (SRSItem.fresh id) es).stage ∧
    (recordSeq (SRSItem.fresh id) es).stage ≤ MasteryStage.MASTERED ∧
    (recordSeq (SRSItem.fresh id) es).total_correct ≤
      (recordSeq (SRSItem.fresh id) es).total_attempts := by
  have hg : SRSgood (SRSItem.fresh id) := by
    constructor
    · show MasteryStage.NEW ≤ MasteryStage.MASTERED
      decide
    · exact le_refl _
  have h := recordSeq_good es (SRSItem.fresh id) hg
  exact ⟨Nat.zero_le _, h.1, h.2⟩

lemma recordSeq_all_correct_below (k : Nat) :
    ∀ (es : List AnswerEvent) (it : SRSItem),
    (∀ e ∈ es, e.correct = true ∧ e.consecutive_to_master = k) →
    it.consecutive_correct + es.length < k →
    (recordSeq it es).stage = it.stage ∧
    (recordSeq it es).consecutive_correct = it.consecutive_correct + es.length := by
  intro es
  induction es with
  | nil => intro it _ _; simp [recordSeq_nil]
  | cons e es ih =>
    intro it hall hlt
    obtain ⟨hc, hk⟩ := hall e (List.mem_cons_self e es)
    rw [recordSeq_cons, hc, hk]
    have hstep := record_answer_correct_no_promo it k e.srs_interval_mult e.now
      (by simp at hlt; omega)
    have hrest := ih (it.record_answer true k e.srs_interval_mult e.now)
      (fun f hf => hall f (List.mem_cons_of_mem e hf))
      (by simp at hlt ⊢; omega)
    rw [hrest.1, hrest.2, hstep.1.1, hstep.1.2]
    simp
    omega

lemma recordSeq_all_correct_promotes (k : Nat) :
    ∀ (es : List AnswerEvent) (it : SRSItem),
    (∀ e ∈ es, e.correct = true ∧ e.consecutive_to_master = k) →
    it.consecutive_correct + es.length = k →
    es ≠ [] →
    it.stage < MasteryStage.MASTERED →
    (recordSeq it es).stage = it.stage + 1 ∧
    (recordSeq it es).consecutive_correct = 0 := by
  intro es
  induction es with
  | nil => intro it _ _ hne _; exact absurd rfl hne
  | cons e es ih =>
    intro it hall hlen _ hst
    obtain ⟨hc, hk⟩ := hall e (List.mem_cons_self e es)
    rw [recordSeq_cons, hc, hk]
    cases es with
    | nil =>
      have hstep := record_answer_correct_promo it k e.srs_interval_mult e.now
        (by simp at hlen; omega) hst
      rw [recordSeq_nil]
      exact ⟨hstep.1.1, hstep.1.2⟩
    | cons f fs =>
      have hstep := record_answer_correct_no_promo it k e.srs_interval_mult e.now
        (by simp at hlen; omega)
      have hrest := ih (it.record_answer true k e.srs_interval_mult e.now)
        (fun g hg => hall g (List.mem_cons_of_mem e hg))
        (by simp at hlen ⊢; omega)
        (by simp)
        (by rw [hstep.1.1]; exact hst)
      rw [hrest.1, hrest.2, hstep.1.1]
      exact ⟨rfl, rfl⟩

/-- C3 (amended): for every threshold k ≥ 1, exactly k consecutive correct
answers (with `consecutive_to_master = k`) from a fresh item promote it
exactly one stage, to `learning`, with `consecutive_correct` reset to 0; and
for k ≥ 2 the (k+1)-th correct answer then starts a fresh streak of 1 toward
the next promotion.  (For k = 1 the (k+1)-th correct answer instead
immediately triggers the next promotion, see the counterexample.) -/
theorem srs_promotion (k : Nat) (id : String) (es : List AnswerEvent) (e : AnswerEvent)
    (hk : 1 ≤ k) (hlen : es.length = k)
    (hall : ∀ a ∈ es, a.correct = true ∧ a.consecutive_to_master = k) :
    ((recordSeq (SRSItem.fresh id) es).stage = MasteryStage.LEARNING ∧
     (recordSeq (SRSItem.fresh id) es).consecutive_correct = 0) ∧
    (2 ≤ k → e.correct = true → e.consecutive_to_master = k →
      (recordSeq (SRSItem.fresh id) (es ++ [e])).stage = MasteryStage.LEARNING ∧
      (recordSeq (SRSItem.fresh id) (es ++ [e])).consecutive_correct = 1) := by
  have hmain := recordSeq_all_correct_promotes k es (SRSItem.fresh id) hall
    (by simp [SRSItem.fresh, hlen]) (by intro h; rw [h] at hlen; simp at hlen; omega)
    (by show MasteryStage.NEW < MasteryStage.MASTERED; decide)
  have hstage : (recordSeq (SRSItem.fresh id) es).stage = MasteryStage.LEARNING := by
    rw [hmain.1]; rfl
  refine ⟨⟨hstage, hmain.2⟩, fun hk2 hec hek => ?_⟩
  rw [recordSeq_append]
  have hstep := record_answer_correct_no_promo (recordSeq (SRSItem.fresh id) es)
    k e.srs_interval_mult e.now (by rw [hmain.2]; omega)
  rw [recordSeq_cons, recordSeq_nil, hec, hek]
  constructor
  · rw [hstep.1.1, hstage]
  · rw [hstep.1.2, hmain.2]

/-- C3 counterexample: with threshold k = 1, the k consecutive correct
answers do promote the fresh item one stage with the streak reset to 0, but
the (k+1)-th = 2nd correct answer does NOT leave a streak of 1 — it reaches
the threshold again and immediately promotes a second time, resetting the
streak to 0 (final stage `review`, streak 0, not `learning`, streak 1). -/
theorem srs_promotion_counterexample :
    (recordSeq (SRSItem.fresh "a") [⟨true, 1, 1, 0⟩]).stage = MasteryStage.LEARNING ∧
    (recordSeq (SRSItem.fresh "a") [⟨true, 1, 1, 0⟩]).consecutive_correct = 0 ∧
    (recordSeq (SRSItem.fresh "a") [⟨true, 1, 1, 0⟩, ⟨true, 1, 1, 0⟩]).consecutive_correct ≠ 1 ∧
    (recordSeq (SRSItem.fresh "a") [⟨true, 1, 1, 0⟩, ⟨true, 1, 1, 0⟩]).consecutive_correct = 0 ∧
    (recordSeq (SRSItem.fresh "a") [⟨true, 1, 1, 0⟩, ⟨true, 1, 1, 0⟩]).stage = MasteryStage.REVIEW := by
  refine ⟨by decide, by decide, by decide, by decide, by decide⟩

/-- Witness for C3 at k = 2. -/
theorem srs_promotion_witness :
    ((recordSeq (SRSItem.fresh "か") [⟨true, 2, 1, 0⟩, ⟨true, 2, 1, 0⟩]).stage = MasteryStage.LEARNING ∧
     (recordSeq (SRSItem.fresh "か") [⟨true, 2, 1, 0⟩, ⟨true, 2, 1, 0⟩]).consecutive_correct = 0) ∧
    ((recordSeq (SRSItem.fresh "か")
        ([⟨true, 2, 1, 0⟩, ⟨true, 2, 1, 0⟩] ++ [⟨true, 2, 1, 0⟩])).stage = MasteryStage.LEARNING ∧
     (recordSeq (SRSItem.fresh "か")
        ([⟨true, 2, 1, 0⟩, ⟨true, 2, 1, 0⟩] ++ [⟨true, 2, 1, 0⟩])).consecutive_correct = 1) := by
  have h := srs_promotion 2 "か" [⟨true, 2, 1, 0⟩, ⟨true, 2, 1, 0⟩] ⟨true, 2, 1, 0⟩
    (by norm_num) (by decide) (by decide)
  exact ⟨h.1, h.2 (by norm_num) rfl rfl⟩

/-- C10: once an item is at the `mastered` ceiling, every further correct
answer leaves the stage at `mastered` and increments `consecutive_correct`
by 1 without resetting it (the reset lives only in the promotion branch,
unreachable at the ceiling), so under consecutive correct answers the streak
of a mastered item grows without bound. -/
theorem mastered_streak_grows (it : SRSItem) (h : it.stage = MasteryStage.MASTERED) :
    (∀ (k : Nat) (mult now : ℚ),
      (it.record_answer true k mult now).stage = MasteryStage.MASTERED ∧
      (it.record_answer true k mult now).consecutive_correct = it.consecutive_correct + 1) ∧
    (∀ es : List AnswerEvent, (∀ a ∈ es, a.correct = true) →
      (recordSeq it es).stage = MasteryStage.MASTERED ∧
      (recordSeq it es).consecutive_correct = it.consecutive_correct + es.length) := by
  have hstep : ∀ (jt : SRSItem), jt.stage = MasteryStage.MASTERED →
      ∀ (k : Nat) (mult now : ℚ),
      (jt.record_answer true k mult now).stage = MasteryStage.MASTERED ∧
      (jt.record_answer true k mult now).consecutive_correct = jt.consecutive_correct + 1 := by
    intro jt hj k mult now
    by_cases h1 : jt.consecutive_correct + 1 < k
    · have hs := record_answer_correct_no_promo jt k mult now h1
      exact ⟨by rw [hs.1.1, hj], hs.1.2⟩
    · have hs := record_answer_correct_ceiling jt k mult now (by omega)
        (by rw [hj]; omega)
      exact ⟨by rw [hs.1.1, hj], hs.1.2⟩
  refine ⟨hstep it h, ?_⟩
  intro es
  induction es generalizing it with
  | nil =>
    intro _
    rw [recordSeq_nil]
    exact ⟨h, by simp⟩
  | cons e fs ih =>
    intro hall
    have hc := (hall e (List.mem_cons_self e fs))
    rw [recordSeq_cons, hc]
    have h1 := hstep it h e.consecutive_to_master e.srs_interval_mult e.now
    have h2 := ih (it.record_answer true e.consecutive_to_master e.srs_interval_mult e.now)
      h1.1 (fun a ha => hall a (List.mem_cons_of_mem e ha))
    rw [h2.1, h2.2, h1.2]
    simp
    omega

/-- Witness for C10 on a concrete mastered item. -/
theorem mastered_streak_grows_witness :
    (((⟨"水", 3, 4, 9, 11, 0, 0⟩ : SRSItem).record_answer true 5 1 0).stage = MasteryStage.MASTERED ∧
     ((⟨"水", 3, 4, 9, 11, 0, 0⟩ : SRSItem).record_answer true 5 1 0).consecutive_correct = 5) :=
  (mastered_streak_grows ⟨"水", 3, 4, 9, 11, 0, 0⟩ rfl).1 5 1 0

/-! ### Monument unlock gating (C6) and the non-character completion cap (C8) -/

/-- C6: monument 0 is always unlocked, and for every monument id i with
0 < i < TOTAL_MONUMENTS whose entry declares prerequisite category `req`,
with a loaded save record, `is_monument_unlocked i` is true iff some
identifier in `completed_minigames` starts with `"<req>_"` (prefix
membership, not a count).  In particular, with
`completed_minigames = ["hiragana_minigame_1"]`, monument 1 (prerequisite
`hiragana`) is unlocked and monument 2 (prerequisite `katakana`) is
locked. -/
theorem monument_unlock_gating :
    (∀ (d : SaveView), is_monument_unlocked (some d) 0 = true) ∧
    (∀ (mid : Int) (m : Monument) (req : String) (d : SaveView),
      MONUMENTS mid = some m → 0 < mid → mid < TOTAL_MONUMENTS →
      m.unlock_requires = some req →
      (is_monument_unlocked (some d) mid = true ↔
        ∃ mg ∈ d.completed_minigames, str_startswith mg (req ++ "_") = true)) ∧
    (is_monument_unlocked (some ⟨[], ["hiragana_minigame_1"], fun _ => []⟩) 1 = true ∧
     is_monument_unlocked (some ⟨[], ["hiragana_minigame_1"], fun _ => []⟩) 2 = false) := by
  refine ⟨fun d => rfl, ?_, by decide, by decide⟩
  intro mid m req d hm h0 ht hreq
  have hchain : UNLOCK_CHAIN mid = some req := by
    rw [UNLOCK_CHAIN, hm, Option.some_bind, hreq]
  rw [is_monument_unlocked]
  rw [if_neg (by simp only [TOTAL_MONUMENTS] at ht ⊢; omega)]
  rw [if_neg (by omega)]
  simp only [hchain, category_minigames_complete, List.any_eq_true]

/-- Witness for C6, instantiating the gating equivalence at monument 1 with
`completed_minigames = ["hiragana_minigame_1"]`. -/
theorem monument_unlock_gating_witness :
    is_monument_unlocked (some ⟨[], ["hiragana_minigame_1"], fun _ => []⟩) 1 = true ↔
      ∃ mg ∈ ["hiragana_minigame_1"], str_startswith mg ("hiragana" ++ "_") = true :=
  monument_unlock_gating.2.1 1 ⟨"Katakana Shrine", "カタカナ神社", "katakana", some "hiragana"⟩
    "hiragana" ⟨[], ["hiragana_minigame_1"], fun _ => []⟩ rfl (by decide) (by decide) rfl

lemma pyRound1_mono {x y : ℚ} (h : x ≤ y) : pyRound1 x ≤ pyRound1 y := by
  unfold pyRound1
  have h1 : round (x * 10) ≤ round (y * 10) := by
    rw [round_eq, round_eq]
    exact Int.floor_le_floor (by linarith)
  have h2 : ((round (x * 10) : Int) : ℚ) ≤ ((round (y * 10) : Int) : ℚ) := by
    exact_mod_cast h1
  linarith

lemma pyRound1_sixty : pyRound1 60 = 60 := by
  unfold pyRound1
  rw [show (60 : ℚ) * 10 = 600 by norm_num, round_eq]
  norm_num

/-- C8: for every monument whose category is neither `hiragana` nor
`katakana` and does not start with `"kanji"`, and every save record, the
mastery term of `monument_completion_percentage` is 0, so the returned
completion percentage never exceeds 60.0. -/
theorem non_character_completion_cap (mid : Int) (m : Monument) (d : SaveView)
    (hm : MONUMENTS mid = some m)
    (h1 : m.category ≠ "hiragana") (h2 : m.category ≠ "katakana")
    (h3 : str_startswith m.category "kanji" = false) :
    masteredCountFor d m.category = 0 ∧
    monument_completion_percentage d mid ≤ 60 := by
  have hmc : masteredCountFor d m.category = 0 := by
    rw [masteredCountFor, if_neg (by tauto), if_neg (by simp [h3])]
  have hif1 : ∀ (n e : Nat), (if e ≠ 0 then min 1 ((n : ℚ) / e) else (0 : ℚ)) ≤ 1 := by
    intro n e
    split
    · exact min_le_left _ _
    · norm_num
  have hifz : ∀ (e : Nat), (if e ≠ 0 then min 1 ((0 : ℚ) / e) else (0 : ℚ)) = 0 := by
    intro e
    split
    · simp
    · rfl
  have key : ∀ a b c : ℚ, a ≤ 1 → b ≤ 1 → c = 0 →
      pyRound1 ((a * 0.30 + b * 0.30 + c * 0.40) * 100) ≤ 60 := by
    intro a b c ha hb hc
    have hx : (a * 0.30 + b * 0.30 + c * 0.40) * 100 ≤ 60 := by
      rw [hc]
      nlinarith
    calc pyRound1 ((a * 0.30 + b * 0.30 + c * 0.40) * 100) ≤ pyRound1 60 := pyRound1_mono hx
      _ = 60 := pyRound1_sixty
  refine ⟨hmc, ?_⟩
  simp only [monument_completion_percentage, hm]
  apply key
  · apply hif1
  · apply hif1
  · rw [hmc]
    apply hifz

/-- Witness for C8 at monument 2 (category `grammar_basic`) on an empty
save record. -/
theorem non_character_completion_cap_witness :
    masteredCountFor ⟨[], [], fun _ => []⟩ "grammar_basic" = 0 ∧
    monument_completion_percentage ⟨[], [], fun _ => []⟩ 2 ≤ 60 :=
  non_character_completion_cap 2
    ⟨"Grammar Garden", "文法庭園", "grammar_basic", some "katakana"⟩
    ⟨[], [], fun _ => []⟩ rfl (by decide) (by decide) (by decide)

/-! ### Dictionary lemmas -/

lemma dlookup_dinsert_self (d : JObj) (k : String) (v : JValue) :
    dlookup (dinsert d k v) k = some v := by
  induction d with
  | nil => simp [dinsert, dlookup]
  | cons kv rest ih =>
    obtain ⟨k', v'⟩ := kv
    by_cases h : k' = k
    · simp [dinsert, dlookup, h]
    · simp [dinsert, dlookup, h, ih]

lemma dlookup_dinsert_of_ne (d : JObj) (k : String) (v : JValue) (k' : String)
    (h : k ≠ k') : dlookup (dinsert d k v) k' = dlookup d k' := by
  induction d with
  | nil => simp [dinsert, dlookup, h]
  | cons kv rest ih =>
    obtain ⟨k0, v0⟩ := kv
    by_cases h0 : k0 = k
    · subst h0
      simp [dinsert, dlookup, h]
    · simp only [dinsert, if_neg h0, dlookup]
      by_cases h1 : k0 = k'
      · simp [h1]
      · simp [h1, ih]

lemma isSome_dlookup_dinsert (d : JObj) (k : String) (v : JValue) (k' : String)
    (h : (dlookup d k').isSome) : (dlookup (dinsert d k v) k').isSome := by
  by_cases hk : k = k'
  · subst hk
    rw [dlookup_dinsert_self]
    rfl
  · rw [dlookup_dinsert_of_ne d k v k' hk]
    exact h

lemma fillMissing_pres (tmpl : JObj) :
    ∀ (data : JObj) (k : String), (dlookup data k).isSome →
    (dlookup (fillMissing data tmpl) k).isSome := by
  induction tmpl with
  | nil => intro data k h; exact h
  | cons kv rest ih =>
    obtain ⟨k0, v0⟩ := kv
    intro data k h
    rw [fillMissing]
    apply ih
    split
    · exact h
    · exact isSome_dlookup_dinsert data k0 v0 k h

lemma fillMissing_mem (tmpl : JObj) :
    ∀ (data : JObj) (k : String), (dlookup tmpl k).isSome →
    (dlookup (fillMissing data tmpl) k).isSome := by
  induction tmpl with
  | nil => intro data k h; simp [dlookup] at h
  | cons kv rest ih =>
    obtain ⟨k0, v0⟩ := kv
    intro data k h
    rw [fillMissing]
    by_cases hk : k0 = k
    · subst hk
      apply fillMissing_pres
      split
      · assumption
      · rw [dlookup_dinsert_self]
        rfl
    · rw [dlookup] at h
      rw [if_neg hk] at h
      exact ih _ k h

lemma fixMastered_pres (d : JObj) (k : String)
    (h : (dlookup d k).isSome) : (dlookup (fixMastered d) k).isSome := by
  unfold fixMastered
  split
  · exact isSome_dlookup_dinsert _ _ _ _ h
  · exact isSome_dlookup_dinsert _ _ _ _ h

lemma fixList_pres (d : JObj) (key k : String)
    (h : (dlookup d k).isSome) : (dlookup (fixList d key) k).isSome := by
  unfold fixList
  split
  · exact h
  · exact isSome_dlookup_dinsert _ _ _ _ h

lemma ifinsert_pres (c : Prop) [Decidable c] (d : JObj) (key : String) (v : JValue)
    (k : String) (h : (dlookup d k).isSome) :
    (dlookup (if c then d else dinsert d key v) k).isSome := by
  split
  · exact h
  · exact isSome_dlookup_dinsert _ _ _ _ h

lemma default_has_key (slot : Int) (k : String) (hk : k ∈ coreKeys) :
    (dlookup (default_save_data slot) k).isSome := by
  fin_cases hk <;> rfl

lemma validate_presence (data : JObj) (slot : Int) (k : String)
    (h : (dlookup (default_save_data slot) k).isSome) :
    (dlookup (validate_save_data data slot) k).isSome := by
  unfold validate_save_data
  exact isSome_dlookup_dinsert _ _ _ _
    (ifinsert_pres _ _ _ _ _
      (ifinsert_pres _ _ _ _ _
        (fixList_pres _ _ _
          (fixList_pres _ _ _
            (fixList_pres _ _ _
              (fixList_pres _ _ _
                (fixMastered_pres _ _
                  (fillMissing_mem _ _ _ h))))))))

lemma validate_has_core (data : JObj) (slot : Int) :
    hasCoreFields (validate_save_data data slot) = true := by
  rw [hasCoreFields, List.all_eq_true]
  intro k hk
  exact validate_presence data slot k (default_has_key slot k hk)

lemma hasCoreFields_dinsert (d : JObj) (k : String) (v : JValue)
    (h : hasCoreFields d = true) : hasCoreFields (dinsert d k v) = true := by
  rw [hasCoreFields, List.all_eq_true] at h ⊢
  intro x hx
  exact isSome_dlookup_dinsert _ _ _ _ (h x hx)

lemma save_game_eq (slot : Int) (data : JObj) (now : String) (w b : Bool) (fs : SlotFS)
    (hv : 1 ≤ slot ∧ slot ≤ MAX_SAVE_SLOTS) :
    save_game slot data now w b fs =
      .ok (w, dinsert (dinsert data "slot" (.jint slot)) "last_played" (.jstr now),
        (let fsb := if fs.primary.isSome ∧ b then { fs with backup := fs.primary } else fs
         if w then
           { fsb with primary := some (.ok (.jobj
               (dinsert (dinsert data "slot" (.jint slot)) "last_played" (.jstr now)))) }
         else fsb)) := by
  unfold save_game
  rw [if_pos hv]
  cases w <;> simp

/-- C2 (amended): whenever `load_game` returns a record, every field of the
default template — slot, player_name, character_appearance,
current_monument, completed_lessons, completed_minigames,
mastered_characters, vocabulary_learned, grammar_learned, total_play_time,
last_played, difficulty — is present, filled from the template when absent
from the source document.  `player_xp` and `player_level` are NOT part of
the template and are not materialized on load (their readers default them
to 0 / 1 at access time); see the counterexample. -/
theorem load_fills_core_fields (slot : Int) (now : String) (writeOk backupOk : Bool)
    (fs : SlotFS) (r : JObj) (fs2 : SlotFS)
    (h : load_game slot now writeOk backupOk fs = .ok (some r, fs2)) :
    hasCoreFields r = true := by
  unfold load_game at h
  by_cases hv : 1 ≤ slot ∧ slot ≤ MAX_SAVE_SLOTS
  · rw [if_pos hv] at h
    split at h
    · simp only [Except.ok.injEq, Prod.mk.injEq, Option.some.injEq] at h
      rw [← h.1]
      exact validate_has_core _ _
    · split at h
      · rw [save_game_eq _ _ _ _ _ _ hv] at h
        simp only [Except.ok.injEq, Prod.mk.injEq, Option.some.injEq] at h
        rw [← h.1]
        exact hasCoreFields_dinsert _ _ _ (hasCoreFields_dinsert _ _ _ (validate_has_core _ _))
      · simp at h
  · rw [if_neg hv] at h
    simp at h

/-- C2 counterexample: loading a well-formed but empty document (`{}`) from
slot 1 returns a record with every template field defaulted, but with no
`player_xp` and no `player_level` key — the claim's field list includes
both, so the claim as stated is false. -/
theorem load_missing_player_xp :
    load_game 1 "t" true true ⟨some (.ok (.jobj [])), none⟩ =
      .ok (some (validate_save_data [] 1), ⟨some (.ok (.jobj [])), none⟩) ∧
    dlookup (validate_save_data [] 1) "player_xp" = none ∧
    dlookup (validate_save_data [] 1) "player_level" = none :=
  ⟨rfl, rfl, rfl⟩

/-- Witness for C2 (amended): the record loaded from an empty document in
slot 1 carries all twelve template fields. -/
theorem load_fills_core_fields_witness :
    hasCoreFields (validate_save_data [] 1) = true :=
  load_fills_core_fields 1 "t" true true ⟨some (.ok (.jobj [])), none⟩
    (validate_save_data [] 1) ⟨some (.ok (.jobj [])), none⟩ rfl

/-- C7: for every slot in range, if the primary file is present but
unparseable (or parses to a non-dict) and the backup parses to a dict, then
`load_game` returns the backup's content (default-filled and
slot/last_played-stamped) and re-saves it as the new primary, so
`does_save_exist` is true afterward with the primary holding exactly that
content. -/
theorem corruption_recovery (slot : Int) (now : String) (b : Bool) (fs : SlotFS)
    (d : JObj) (h1 : 1 ≤ slot) (h2 : slot ≤ MAX_SAVE_SLOTS)
    (hp : primaryCorrupt fs.primary = true)
    (hb : fs.backup = some (.ok (.jobj d))) :
    ∃ fs2 : SlotFS,
      load_game slot now true b fs =
        .ok (some (dinsert (dinsert (validate_save_data d slot) "slot" (.jint slot))
          "last_played" (.jstr now)), fs2) ∧
      fs2.primary = some (.ok (.jobj (dinsert (dinsert (validate_save_data d slot)
        "slot" (.jint slot)) "last_played" (.jstr now)))) ∧
      does_save_exist slot fs2 = .ok true := by
  have hv : 1 ≤ slot ∧ slot ≤ MAX_SAVE_SLOTS := ⟨h1, h2⟩
  have hfall :
      load_game slot now true b fs =
        match fs.backup with
        | some (.ok (.jobj d)) =>
          match save_game slot (validate_save_data d slot) now true b fs with
          | .ok (_, data2, fs2) => .ok (some data2, fs2)
          | .error e => .error e
        | _ => .ok (none, fs) := by
    unfold load_game
    rw [if_pos hv]
    rcases hfp : fs.primary with _ | fd
    · rfl
    · rcases fd with v | _
      · rcases v with _ | _ | _ | _ | _ | _ | o
        · rfl
        · rfl
        · rfl
        · rfl
        · rfl
        · rfl
        · rw [hfp] at hp
          simp [primaryCorrupt] at hp
      · rfl
  have hfall2 : load_game slot now true b fs =
      match save_game slot (validate_save_data d slot) now true b fs with
      | Except.ok (_, data2, fs2) => Except.ok (some data2, fs2)
      | Except.error e => Except.error e := by
    rw [hfall, hb]
  rw [hfall2, save_game_eq _ _ _ _ _ _ hv]
  refine ⟨_, rfl, rfl, ?_⟩
  unfold does_save_exist
  rw [if_pos hv]
  rfl

/-- Witness for C7: slot 1 with an unparseable primary and an empty-dict
backup. -/
theorem corruption_recovery_witness :
    ∃ fs2 : SlotFS,
      load_game 1 "t" true true ⟨some .bad, some (.ok (.jobj []))⟩ =
        .ok (some (dinsert (dinsert (validate_save_data [] 1) "slot" (.jint 1))
          "last_played" (.jstr "t")), fs2) ∧
      fs2.primary = some (.ok (.jobj (dinsert (dinsert (validate_save_data [] 1)
        "slot" (.jint 1)) "last_played" (.jstr "t")))) ∧
      does_save_exist 1 fs2 = .ok true :=
  corruption_recovery 1 "t" true ⟨some .bad, some (.ok (.jobj []))⟩ []
    (by norm_num) (by norm_num [MAX_SAVE_SLOTS]) rfl rfl

/-- C9: `save_game` stamps `slot` and `last_played` into the caller's
record before attempting the file write, so when the write fails and
`save_game` returns `False`, the record it leaves behind still carries both
stamps (no rollback of the in-memory mutation). -/
theorem save_mutates_before_write (slot : Int) (data : JObj) (now : String) (b : Bool)
    (fs : SlotFS) (h1 : 1 ≤ slot) (h2 : slot ≤ MAX_SAVE_SLOTS) :
    ∃ fs2 : SlotFS,
      save_game slot data now false b fs =
        .ok (false, dinsert (dinsert data "slot" (.jint slot)) "last_played" (.jstr now), fs2) ∧
      dlookup (dinsert (dinsert data "slot" (.jint slot)) "last_played" (.jstr now))
        "slot" = some (.jint slot) ∧
      dlookup (dinsert (dinsert data "slot" (.jint slot)) "last_played" (.jstr now))
        "last_played" = some (.jstr now) := by
  refine ⟨_, save_game_eq slot data now false b fs ⟨h1, h2⟩, ?_, dlookup_dinsert_self _ _ _⟩
  rw [dlookup_dinsert_of_ne _ _ _ _ (by decide)]
  exact dlookup_dinsert_self _ _ _

/-- Witness for C9 at slot 1 with an empty record and no existing files. -/
theorem save_mutates_before_write_witness :
    ∃ fs2 : SlotFS,
      save_game 1 [] "2026-01-01T00:00:00+00:00" false true ⟨none, none⟩ =
        .ok (false, dinsert (dinsert [] "slot" (.jint 1)) "last_played"
          (.jstr "2026-01-01T00:00:00+00:00"), fs2) ∧
      dlookup (dinsert (dinsert [] "slot" (.jint 1)) "last_played"
        (.jstr "2026-01-01T00:00:00+00:00")) "slot" = some (.jint 1) ∧
      dlookup (dinsert (dinsert [] "slot" (.jint 1)) "last_played"
        (.jstr "2026-01-01T00:00:00+00:00")) "last_played" =
          some (.jstr "2026-01-01T00:00:00+00:00") :=
  save_mutates_before_write 1 [] "2026-01-01T00:00:00+00:00" true ⟨none, none⟩
    (by norm_num) (by norm_num [MAX_SAVE_SLOTS])
